import Mathlib

/-!
Verification development for the K-Square onboarding workflow core.

The Python source is shallowly embedded: pure agent computations become Lean
functions on `String`, `List` and `Rat` (machine floats are modelled as exact
rationals, since every score in the core is built from decimal literals and
small-integer divisions); the SQLite-backed profile store becomes an explicit
list of records threaded through the stage that touches it; the orchestrator's
stage sequencing becomes a function over the outcomes of the five stage calls,
where a Python call can either return a tagged result dictionary or raise.
-/

namespace KS

/-- Python str.lower() (ASCII data throughout this codebase), character by
character; defined over the character list so that it evaluates inside the
kernel. -/
def pyLower (s : String) : String :=
  String.mk (s.toList.map Char.toLower)

/-- Strip leading and trailing whitespace (Python str.strip()). -/
def pyStrip (s : String) : String :=
  String.mk (((s.toList.dropWhile Char.isWhitespace).reverse.dropWhile
    Char.isWhitespace).reverse)

/-- Split at every character satisfying the predicate, keeping empty pieces,
accumulating the current piece in reverse. -/
def splitCharsAux (p : Char → Bool) : List Char → List Char → List String
  | [], acc => [String.mk acc.reverse]
  | c :: rest, acc =>
    if p c then String.mk acc.reverse :: splitCharsAux p rest []
    else splitCharsAux p rest (c :: acc)

/-- Split a string at every character satisfying the predicate, keeping empty
pieces. -/
def splitChars (p : Char → Bool) (s : String) : List String :=
  splitCharsAux p s.toList []

/-- Python str.split(",") : split at every comma, keeping empty pieces. -/
def pySplitComma (s : String) : List String :=
  splitChars (fun c => c == ',') s

/-- Does the needle occur as a contiguous block starting at some suffix? -/
def containsSubAux (needle : List Char) : List Char → Bool
  | [] => needle.isEmpty
  | c :: rest => needle.isPrefixOf (c :: rest) || containsSubAux needle rest

/-- Python substring test (the `in` operator on strings): contiguous
occurrence of the needle inside the haystack. -/
def containsSub (hay needle : String) : Bool :=
  containsSubAux needle.toList hay.toList

/-- Python str.capitalize(): first character upper-cased, the rest
lower-cased (ASCII data throughout this codebase). -/
def pyCapitalize (s : String) : String :=
  match s.toList with
  | [] => ""
  | c :: rest => String.mk (c.toUpper :: rest.map Char.toLower)

/-- Python str.split() with no separator: split on whitespace runs and
drop empty pieces. -/
def pySplitWs (s : String) : List String :=
  (splitChars Char.isWhitespace s).filter (fun p => p ≠ "")

/-! ## Domain Knowledge Agent (src/backend/agents/domain_knowledge.py) -/

/-- One value of the agent's static `knowledge_base` dictionary. -/
structure DomainInfo where
  best_practices : List String
  common_challenges : List String
  recommended_tools : List String
deriving DecidableEq, Repr

/-- The static knowledge base of `DomainKnowledgeAgent.__init__`, as an
association list keyed by lower-case industry name. -/
def knowledge_base : List (String × DomainInfo) :=
  [ ("automotive",
      { best_practices :=
          [ "Define clear KPIs early in the project"
          , "Use Salesforce Sales Cloud for lead tracking"
          , "Ensure clear customer journey mapping"
          , "Implement robust data analytics for performance tracking"
          , "Focus on scalability for growing lead volumes" ]
        common_challenges :=
          [ "Complex lead qualification processes"
          , "Integration with existing CRM systems"
          , "Data quality and consistency issues"
          , "User adoption and training requirements" ]
        recommended_tools := ["Salesforce", "HubSpot", "Pipedrive", "Java", "Python"] })
  , ("healthcare",
      { best_practices :=
          [ "Ensure HIPAA compliance from day one"
          , "Use encrypted databases for patient data"
          , "Conduct regular security audits"
          , "Implement role-based access controls"
          , "Maintain detailed audit logs" ]
        common_challenges :=
          [ "Regulatory compliance requirements"
          , "Data security and privacy concerns"
          , "Integration with existing healthcare systems"
          , "User training on compliance procedures" ]
        recommended_tools := ["AWS RDS", "Python", "PostgreSQL", "Docker", "Kubernetes"] })
  , ("retail",
      { best_practices :=
          [ "Simplify checkout forms to reduce abandonment"
          , "Implement one-click checkout options"
          , "Optimize for mobile-first experience"
          , "Use A/B testing for conversion optimization"
          , "Implement real-time inventory management" ]
        common_challenges :=
          [ "High cart abandonment rates"
          , "Mobile optimization requirements"
          , "Payment gateway integration"
          , "Inventory synchronization issues" ]
        recommended_tools := ["Shopify", "WooCommerce", "Node.js", "React", "Stripe"] }) ]

/-- `self.knowledge_base.get(industry_key, {})`, with the empty dictionary
default rendered as `none`. -/
def kb_lookup (industry_key : String) : Option DomainInfo :=
  (knowledge_base.find? (fun p => p.1 == industry_key)).map Prod.snd

/-- `_generate_generic_knowledge`: a fixed constant; the two arguments of the
Python method are ignored by its body. -/
def generate_generic_knowledge (_industry _problem_statement : String) : DomainInfo :=
  { best_practices :=
      [ "Define clear project requirements and scope"
      , "Implement proper testing and quality assurance"
      , "Plan for scalability and future growth"
      , "Ensure proper documentation and knowledge transfer" ]
    common_challenges :=
      [ "Scope creep and changing requirements"
      , "Integration with legacy systems"
      , "User adoption and training"
      , "Performance and scalability issues" ]
    recommended_tools := ["Python", "JavaScript", "PostgreSQL", "Docker", "Git"] }

/-- `item.strip().lower() for item in tech_stack.split(',')`. -/
def tech_items (tech_stack : String) : List String :=
  (pySplitComma tech_stack).map (fun item => pyLower (pyStrip item))

/-- The `tech_analysis` dictionary built by `_analyze_tech_stack`. -/
structure TechAnalysis where
  compatible_tools : List String
  missing_recommended_tools : List String
  compatibility_score : ℚ
  suggestions : List String
deriving DecidableEq, Repr

/-- Substring search inside `str(domain_info)` in Python. The needles used by
the source ("healthcare", "retail") are purely alphabetic, and the repr of the
dictionary separates its key names and member strings with punctuation, so the
needle occurs in the repr exactly when it occurs in a key name or in one of the
member strings. -/
def domain_info_repr_contains (d : DomainInfo) (needle : String) : Bool :=
  (["best_practices", "common_challenges", "recommended_tools"]
    ++ d.best_practices ++ d.common_challenges ++ d.recommended_tools).any
    (fun s => containsSub s needle)

/-- `_analyze_tech_stack(tech_stack, domain_info)`. -/
def analyze_tech_stack (tech_stack : String) (domain_info : DomainInfo) : TechAnalysis :=
  let items := tech_items tech_stack
  let recommended_tools := domain_info.recommended_tools.map (fun tool => (pyLower tool))
  let compatible_tools := items.filter (fun tool => recommended_tools.contains tool)
  let missing_tools := recommended_tools.filter (fun tool => !(items.contains tool))
  { compatible_tools := compatible_tools
    missing_recommended_tools := missing_tools.take 3
    compatibility_score := (compatible_tools.length : ℚ) / (max recommended_tools.length 1 : ℚ)
    suggestions :=
      (if items.contains "python" && domain_info_repr_contains domain_info "healthcare" then
        ["Consider using Django for HIPAA-compliant web applications"] else [])
      ++ (if items.contains "salesforce" then
        ["Utilize Salesforce APIs for seamless integration"] else [])
      ++ (if items.contains "node.js" && domain_info_repr_contains domain_info "retail" then
        ["Consider Express.js for building scalable e-commerce APIs"] else []) }

/-- `_analyze_problem_statement(problem_statement, domain_info)`. -/
def analyze_problem_statement (problem_statement : String) (domain_info : DomainInfo) :
    List String :=
  let problem_lower := (pyLower problem_statement)
  (if containsSub problem_lower "lead management" then
    [ "Focus on lead qualification and nurturing processes"
    , "Consider implementing lead scoring mechanisms" ] else [])
  ++ (if containsSub problem_lower "patient record" || containsSub problem_lower "hipaa" then
    [ "Prioritize data security and compliance requirements"
    , "Implement comprehensive audit logging" ] else [])
  ++ (if containsSub problem_lower "checkout" || containsSub problem_lower "e-commerce" then
    [ "Focus on reducing friction in the purchase process"
    , "Consider mobile-first design principles" ] else [])
  ++ (if containsSub problem_lower "salesforce" then
    [ "Leverage Salesforce\u0027s built-in automation features"
    , "Plan for user training and adoption strategies" ] else [])
  ++ domain_info.best_practices.take 2

/-- `_generate_recommendations(industry, problem_statement, tech_stack, domain_info)`
(the `tech_stack` and `domain_info` arguments are unused by the Python body). -/
def generate_recommendations (industry problem_statement _tech_stack : String)
    (_domain_info : DomainInfo) : List String :=
  (if (pyLower industry) == "automotive" then
    [ "Define KPIs early to avoid project delays"
    , "Implement comprehensive lead tracking system"
    , "Plan for integration with existing automotive systems" ]
  else if (pyLower industry) == "healthcare" then
    [ "Use AWS RDS for HIPAA-compliant data storage"
    , "Implement end-to-end encryption for patient data"
    , "Establish regular compliance audit procedures" ]
  else if (pyLower industry) == "retail" then
    [ "Implement one-click checkout to improve conversion rates"
    , "Optimize checkout flow for mobile devices"
    , "Use A/B testing to validate design changes" ]
  else [])
  ++ (if containsSub (pyLower problem_statement) "management" then
    ["Establish clear process workflows and approval chains"] else [])
  ++ (if containsSub (pyLower problem_statement) "optimization" then
    ["Implement analytics to measure optimization impact"] else [])

/-- `_calculate_confidence_score(industry_key, domain_info)`: the second
argument is the (possibly empty) dictionary; a non-empty dictionary is truthy
in Python, rendered here as `some`. -/
def calculate_confidence_score (industry_key : String) (domain_info : Option DomainInfo) : ℚ :=
  if (knowledge_base.map Prod.fst).contains industry_key then 0.9
  else
    match domain_info with
    | some _ => 0.6
    | none => 0.3

/-- The `domain_knowledge` sub-dictionary of the stage result. -/
structure DomainKnowledgeData where
  best_practices : List String
  common_challenges : List String
  recommended_tools : List String
  problem_insights : List String
  tech_analysis : TechAnalysis
  recommendations : List String
deriving DecidableEq, Repr

/-- The stage result of `process_domain_knowledge`. -/
structure DomainResult where
  status : String
  industry : String
  domain_knowledge : DomainKnowledgeData
  confidence_score : ℚ
deriving DecidableEq, Repr

/-- `process_domain_knowledge(industry, problem_statement, tech_stack)` on the
success path. All operations in the body are total string processing, so the
surrounding except-branch of the source is dead for string inputs. -/
def process_domain_knowledge (industry problem_statement tech_stack : String) : DomainResult :=
  let industry_key := (pyLower industry)
  let domain_info :=
    match kb_lookup industry_key with
    | some d => d
    | none => generate_generic_knowledge industry problem_statement
  { status := "success"
    industry := industry
    domain_knowledge :=
      { best_practices := domain_info.best_practices
        common_challenges := domain_info.common_challenges
        recommended_tools := domain_info.recommended_tools
        problem_insights := analyze_problem_statement problem_statement domain_info
        tech_analysis := analyze_tech_stack tech_stack domain_info
        recommendations := generate_recommendations industry problem_statement tech_stack domain_info }
    confidence_score := calculate_confidence_score industry_key (some domain_info) }

/-! ## Actionable Insights Agent (src/backend/agents/actionable_insights.py) -/

/-- One entry of the `risks` list built by `_assess_risks`.
`_calculate_risk_score` reads only the `probability` field; every risk built
by the source carries one explicitly, so the dictionary default "medium" of
`risk.get("probability", "medium")` never fires and the field is total here. -/
structure Risk where
  category : String
  risk : String
  probability : String
  impact : String
deriving DecidableEq, Repr

/-- `risk_values.get(probability, 0.6)` with
`risk_values = {"low": 0.3, "medium": 0.6, "high": 0.9}`. -/
def risk_values (probability : String) : ℚ :=
  if probability == "low" then 0.3
  else if probability == "medium" then 0.6
  else if probability == "high" then 0.9
  else 0.6

/-- `_calculate_risk_score(risks)`. -/
def calculate_risk_score (risks : List Risk) : ℚ :=
  if risks.isEmpty then 0.2
  else min ((risks.map (fun r => risk_values r.probability)).sum / (risks.length : ℚ)) 1

/-- `_categorize_risk_level(risk_score)`. -/
def categorize_risk_level (risk_score : ℚ) : String :=
  if risk_score ≥ 0.7 then "high"
  else if risk_score ≥ 0.4 then "medium"
  else "low"

/-- `_categorize_health_level(health_score)`. -/
def categorize_health_level (health_score : ℚ) : String :=
  if health_score ≥ 80 then "excellent"
  else if health_score ≥ 60 then "good"
  else if health_score ≥ 40 then "fair"
  else "poor"

/-! ## Meetings Agent (src/backend/agents/meetings.py)

The eight action-item patterns and the engagement-percentage pattern are all
of the shape literal-and-optional tokens followed by one greedy capturing
group at the end, so they are embedded with a small backtracking matcher over
exactly those token kinds. -/

/-- Pattern tokens: a literal character, an optional character out of a small
class, a greedy whitespace star, a greedy whitespace plus. -/
inductive RTok where
  | lit (c : Char)
  | optc (cs : List Char)
  | starWs
  | plusWs
deriving DecidableEq, Repr

/-- Literal characters of a pattern. -/
def litToks (s : String) : List RTok := s.toList.map RTok.lit

/-- Remainders after consuming zero or more whitespace characters, the
greedy (longest-consumption) alternative first. -/
def wsSplits : List Char → List (List Char)
  | [] => [[]]
  | c :: rest => if c.isWhitespace then wsSplits rest ++ [c :: rest] else [c :: rest]

/-- All remainders after matching a token sequence at the start of the input,
in the backtracking priority order of `re` (greedy alternatives first). -/
def matchToks : List RTok → List Char → List (List Char)
  | [], s => [s]
  | RTok.lit c :: ts, s =>
    match s with
    | [] => []
    | d :: rest => if d == c then matchToks ts rest else []
  | RTok.optc cs :: ts, s =>
    (match s with
     | [] => []
     | d :: rest => if cs.contains d then matchToks ts rest else []) ++ matchToks ts s
  | RTok.starWs :: ts, s => (wsSplits s).flatMap (fun r => matchToks ts r)
  | RTok.plusWs :: ts, s =>
    match s with
    | [] => []
    | d :: rest => if d.isWhitespace then (wsSplits rest).flatMap (fun r => matchToks ts r) else []

/-- The capturing group `([^.!?]+)`: a maximal nonempty run of characters
other than '.', '!' and '?'. Nothing follows the group in any pattern, so the
greedy maximal run is the alternative `re` commits to. -/
def capSplit (s : List Char) : Option (List Char × List Char) :=
  let run := s.takeWhile (fun c => !(c == '.' || c == '!' || c == '?'))
  if run.isEmpty then none else some (run, s.drop run.length)

/-- First remainder on which the capturing group succeeds. -/
def firstCap : List (List Char) → Option (List Char × List Char)
  | [] => none
  | r :: rs =>
    match capSplit r with
    | some x => some x
    | none => firstCap rs

/-- Match `pattern` followed by `([^.!?]+)` at the start of `s`; on success
return the captured text and the remainder after the whole match. -/
def matchCapAt (p : List RTok) (s : List Char) : Option (List Char × List Char) :=
  firstCap (matchToks p s)

/-- `re.findall` for one pattern: scan left to right, at each position try the
pattern, emit the capture on success and continue after the match. Matches are
nonempty, so every step consumes at least one character and fuel
`length s` suffices. -/
def findAllAux (p : List RTok) : Nat → List Char → List (List Char)
  | 0, _ => []
  | _, [] => []
  | Nat.succ fuel, s@(_ :: rest) =>
    match matchCapAt p s with
    | some (cap, after) => cap :: findAllAux p fuel after
    | none => findAllAux p fuel rest

/-- All captures of one pattern over an input. -/
def findAll (p : List RTok) (s : List Char) : List (List Char) :=
  findAllAux p s.length s

/-- The eight fixed `action_patterns` of `_extract_action_items`, without
their common trailing capture group. -/
def action_patterns : List (List RTok) :=
  [ litToks "action item" ++ [RTok.optc ['s'], RTok.optc [':'], RTok.starWs]
  , litToks "todo" ++ [RTok.optc ['s'], RTok.optc [':'], RTok.starWs]
  , litToks "follow" ++ [RTok.optc ['-', ' ']] ++ litToks "up" ++ [RTok.optc [':'], RTok.starWs]
  , litToks "next step" ++ [RTok.optc ['s'], RTok.optc [':'], RTok.starWs]
  , litToks "need" ++ [RTok.optc ['s']] ++ litToks " to" ++ [RTok.plusWs]
  , litToks "should" ++ [RTok.plusWs]
  , litToks "will" ++ [RTok.plusWs]
  , litToks "must" ++ [RTok.plusWs] ]

/-- `_assess_action_priority(action_text)`. -/
def assess_action_priority (action_text : String) : String :=
  let action_lower := (pyLower action_text)
  if ["urgent", "asap", "immediately", "critical", "must"].any
      (fun w => containsSub action_lower w) then "high"
  else if ["should", "need", "important", "soon"].any
      (fun w => containsSub action_lower w) then "medium"
  else "low"

/-- `_classify_action_type(action_text)`. -/
def classify_action_type (action_text : String) : String :=
  let action_lower := (pyLower action_text)
  if ["plan", "design", "architect"].any (fun w => containsSub action_lower w) then "planning"
  else if ["develop", "implement", "build", "code"].any
      (fun w => containsSub action_lower w) then "development"
  else if ["test", "verify", "validate"].any (fun w => containsSub action_lower w) then "testing"
  else if ["review", "approve", "check"].any (fun w => containsSub action_lower w) then "review"
  else if ["meet", "discuss", "call"].any (fun w => containsSub action_lower w) then "communication"
  else "general"

/-- One extracted action item. -/
structure ActionItem where
  item : String
  priority : String
  type : String
deriving DecidableEq, Repr

/-- All raw captures: for each pattern in order, its matches over the
lowercased transcript (`re.IGNORECASE` is inert on an already lowercased
input and lower-case patterns). -/
def action_matches (transcript : String) : List String :=
  action_patterns.flatMap
    (fun p => (findAll p (pyLower transcript).toList).map (fun cs => String.mk cs))

/-- The first loop of `_extract_action_items`: keep captures whose stripped
text is longer than 10 characters and tag them (priority and type are
computed from the unstripped capture, as in the source). -/
def tagged_action_items (transcript : String) : List ActionItem :=
  ((action_matches transcript).filter (fun m => (pyStrip m).length > 10)).map
    (fun m =>
      { item := pyCapitalize (pyStrip m)
        priority := assess_action_priority m
        type := classify_action_type m })

/-- The deduplication loop: keep the first item for each lower-cased text,
`seen` being the set of already-kept keys. -/
def dedupActionItems : List ActionItem → List String → List ActionItem
  | [], _ => []
  | it :: rest, seen =>
    if seen.contains (pyLower it.item) then dedupActionItems rest seen
    else it :: dedupActionItems rest ((pyLower it.item) :: seen)

/-- `_extract_action_items(transcript)`. -/
def extract_action_items (transcript : String) : List ActionItem :=
  (dedupActionItems (tagged_action_items transcript) []).take 5

/-- The tokens of `engagement[:]?\s*` before the digit group of the pattern
`engagement[:]?\s*(\d+)%?` used by `_calculate_engagement_metrics`. -/
def engagement_pattern : List RTok :=
  litToks "engagement" ++ [RTok.optc [':'], RTok.starWs]

/-- The digit group `(\d+)`: a maximal nonempty digit run. The optional `%`
after the group does not constrain the match. -/
def digitCapSplit (s : List Char) : Option (List Char) :=
  let run := s.takeWhile Char.isDigit
  if run.isEmpty then none else some run

/-- First remainder on which the digit group succeeds. -/
def firstDigitCap : List (List Char) → Option (List Char)
  | [] => none
  | r :: rs =>
    match digitCapSplit r with
    | some x => some x
    | none => firstDigitCap rs

/-- Python `int` on a nonempty decimal digit string. -/
def digitsToNat (ds : List Char) : Nat :=
  ds.foldl (fun acc c => 10 * acc + (c.toNat - Char.toNat '0')) 0

/-- `re.search` for the engagement-percentage pattern: the match at the
leftmost possible position wins. -/
def searchPctAux (fuel : Nat) (s : List Char) : Option Nat :=
  match fuel, s with
  | 0, _ => none
  | _, [] => none
  | Nat.succ fuel, s@(_ :: rest) =>
    match firstDigitCap (matchToks engagement_pattern s) with
    | some ds => some (digitsToNat ds)
    | none => searchPctAux fuel rest

/-- `re.search(r"engagement[:]?\s*(\d+)%?", text)` with its group read as an
integer; `none` when there is no match. -/
def search_engagement_percentage (text : String) : Option Nat :=
  searchPctAux text.length text.toList

/-- Occurrences of one character in a string (Python `str.count` for a
single-character needle). -/
def charCount (s : String) (c : Char) : Nat :=
  (s.toList.filter (fun d => d == c)).length

/-- Number of maximal runs of sentence terminators ('.', '!', '?'); the flag
records whether the previous character was a terminator. -/
def countTermRuns : List Char → Bool → Nat
  | [], _ => 0
  | c :: rest, inRun =>
    if c == '.' || c == '!' || c == '?' then
      (if inRun then 0 else 1) + countTermRuns rest true
    else countTermRuns rest false

/-- `len(re.split(r'[.!?]+', transcript))`: one more piece than there are
maximal terminator runs. -/
def sentence_count (transcript : String) : Nat :=
  1 + countTermRuns transcript.toList false

/-- `_calculate_engagement_score(word_count, question_count,
exclamation_count, engagement_percentage)`. -/
def calculate_engagement_score (word_count question_count exclamation_count : Nat)
    (engagement_percentage : Option Nat) : ℚ :=
  match engagement_percentage with
  | some pct => (pct : ℚ) / 100
  | none =>
    let base_score := min ((word_count : ℚ) / 200) 1
    let question_bonus := min ((question_count : ℚ) * 0.1) 0.3
    let exclamation_bonus := min ((exclamation_count : ℚ) * 0.05) 0.2
    min (base_score + question_bonus + exclamation_bonus) 1

/-- `_assess_participation_level(engagement_score)`. -/
def assess_participation_level (engagement_score : ℚ) : String :=
  if engagement_score ≥ 0.8 then "high"
  else if engagement_score ≥ 0.6 then "medium"
  else "low"

/-- The `engagement_metrics` dictionary of `_calculate_engagement_metrics`
(the estimated speaking duration, a display-only float, is elided). -/
structure EngagementMetrics where
  engagement_percentage : Option Nat
  word_count : Nat
  sentence_count : Nat
  question_count : Nat
  exclamation_count : Nat
  engagement_score : ℚ
  participation_level : String
deriving DecidableEq, Repr

/-- `_calculate_engagement_metrics(transcript)`. -/
def calculate_engagement_metrics (transcript : String) : EngagementMetrics :=
  let engagement_percentage := search_engagement_percentage (pyLower transcript)
  let word_count := (pySplitWs transcript).length
  let question_count := charCount transcript '?'
  let exclamation_count := charCount transcript '!'
  let engagement_score :=
    calculate_engagement_score word_count question_count exclamation_count engagement_percentage
  { engagement_percentage := engagement_percentage
    word_count := word_count
    sentence_count := sentence_count transcript
    question_count := question_count
    exclamation_count := exclamation_count
    engagement_score := engagement_score
    participation_level := assess_participation_level engagement_score }

/-! ## Client Profile Agent (src/backend/agents/client_profile.py)

The timestamp bookkeeping fields of the profile dictionary (`profile_created`,
`last_updated`) are clock-derived display strings and are elided; the current
year read from the clock by the founding-year and insight heuristics is an
explicit parameter. -/

/-- One stakeholder entry. -/
structure Stakeholder where
  name : String
  role : String
deriving DecidableEq, Repr

/-- The `current_project` sub-dictionary added by `_enhance_profile`. -/
structure CurrentProject where
  problem_statement : String
  technologies : List String
  project_type : String
  complexity_level : String
deriving DecidableEq, Repr

/-- The `business_context` sub-dictionary of `_generate_business_context`. -/
structure BusinessContext where
  industry_trends : List String
  business_drivers : List String
  success_metrics : List String
  risk_factors : List String
deriving DecidableEq, Repr

/-- The profile dictionary; `current_project` and `business_context` are absent
(`none`) until `_enhance_profile` adds them. -/
structure ProfileData where
  name : String
  industry : String
  founded : Int
  company_size : String
  region : String
  stakeholders : List Stakeholder
  tech_stack : List String
  primary_challenge : String
  current_project : Option CurrentProject
  business_context : Option BusinessContext
deriving DecidableEq, Repr

/-- `_estimate_company_size(problem_statement, tech_stack)`. -/
def estimate_company_size (problem_statement tech_stack : String) : String :=
  let problem_lower := (pyLower problem_statement)
  let tech_lower := (pyLower tech_stack)
  let complexity_score :=
    (["enterprise", "scale", "multiple", "integration", "complex",
      "large", "global", "distributed", "microservices"].filter
      (fun ind => containsSub problem_lower ind || containsSub tech_lower ind)).length
  if complexity_score ≥ 3 then "Large (1000+ employees)"
  else if complexity_score ≥ 1 then "Medium (100-1000 employees)"
  else "Small (10-100 employees)"

/-- `_estimate_founding_year(industry, tech_stack)` with the clock year as a
parameter. -/
def estimate_founding_year (current_year : Int) (industry tech_stack : String) : Int :=
  let tech_lower := (pyLower tech_stack)
  let modern_score : Int :=
    (["react", "node.js", "kubernetes", "docker", "aws", "microservices"].filter
      (fun t => containsSub tech_lower t)).length
  if modern_score ≥ 2 then current_year - (5 + modern_score * 2)
  else if ["automotive", "healthcare"].contains (pyLower industry) then
    current_year - (20 + modern_score * 5)
  else current_year - (10 + modern_score * 3)

/-- `_determine_regions(industry)`. -/
def determine_regions (industry : String) : String :=
  if (pyLower industry) == "automotive" then "USA, Europe, Asia"
  else if (pyLower industry) == "healthcare" then "USA, Canada"
  else if (pyLower industry) == "retail" then "Global"
  else if (pyLower industry) == "technology" then "USA, Europe"
  else if (pyLower industry) == "finance" then "USA, Europe, Asia"
  else if (pyLower industry) == "manufacturing" then "USA, Europe, Asia"
  else "USA"

/-- `_generate_stakeholders(problem_statement, industry)`. -/
def generate_stakeholders (problem_statement industry : String) : List Stakeholder :=
  let problem_lower := (pyLower problem_statement)
  let sts : List Stakeholder :=
    [{ name := "Technical Lead", role := "CTO" }]
    ++ (if containsSub problem_lower "lead management" || containsSub problem_lower "sales" then
      [{ name := "Sales Director", role := "VP of Sales" }] else [])
    ++ (if containsSub problem_lower "patient" || containsSub (pyLower industry) "healthcare" then
      [{ name := "Compliance Officer", role := "Compliance Officer" }] else [])
    ++ (if containsSub problem_lower "checkout" || containsSub problem_lower "e-commerce" then
      [{ name := "Marketing Lead", role := "VP of Marketing" }] else [])
    ++ (if containsSub problem_lower "product" then
      [{ name := "Product Manager", role := "VP of Product" }] else [])
  if sts.length < 2 then sts ++ [{ name := "Project Manager", role := "Project Manager" }]
  else sts

/-- `_extract_primary_challenge(problem_statement)`. -/
def extract_primary_challenge (problem_statement : String) : String :=
  let problem_lower := (pyLower problem_statement)
  if containsSub problem_lower "lead management" then "Lead Management and Conversion"
  else if containsSub problem_lower "patient record" then
    "Healthcare Data Management and Compliance"
  else if containsSub problem_lower "checkout" then "E-commerce Conversion Optimization"
  else if containsSub problem_lower "optimization" then "Process Optimization"
  else if containsSub problem_lower "integration" then "System Integration"
  else "Digital Transformation"

/-- `_classify_project_type(problem_statement)`. -/
def classify_project_type (problem_statement : String) : String :=
  let problem_lower := (pyLower problem_statement)
  if containsSub problem_lower "implement" || containsSub problem_lower "develop" then
    "Implementation"
  else if containsSub problem_lower "optimize" || containsSub problem_lower "improve" then
    "Optimization"
  else if containsSub problem_lower "integrate" then "Integration"
  else if containsSub problem_lower "migrate" then "Migration"
  else "Custom Development"

/-- `_assess_complexity(problem_statement, tech_stack)`. -/
def assess_complexity (problem_statement tech_stack : String) : String :=
  let text := pyLower (problem_statement ++ " " ++ tech_stack)
  let complexity_score :=
    (["integration", "compliance", "scale", "multiple", "complex",
      "enterprise", "distributed", "microservices", "real-time"].filter
      (fun factor => containsSub text factor)).length
  if complexity_score ≥ 4 then "High"
  else if complexity_score ≥ 2 then "Medium"
  else "Low"

/-- `_get_industry_trends(industry)`. -/
def get_industry_trends (industry : String) : List String :=
  if (pyLower industry) == "automotive" then
    ["Digital transformation", "Connected vehicles", "Data analytics"]
  else if (pyLower industry) == "healthcare" then
    ["Digital health records", "Telemedicine", "AI diagnostics"]
  else if (pyLower industry) == "retail" then
    ["Omnichannel experience", "Mobile commerce", "Personalization"]
  else ["Digital transformation", "Cloud adoption"]

/-- `_extract_business_drivers(problem_statement)`. -/
def extract_business_drivers (problem_statement : String) : List String :=
  let problem_lower := (pyLower problem_statement)
  let drivers :=
    (if containsSub problem_lower "efficiency" || containsSub problem_lower "optimize" then
      ["Operational efficiency"] else [])
    ++ (if containsSub problem_lower "customer" || containsSub problem_lower "user" then
      ["Customer experience"] else [])
    ++ (if containsSub problem_lower "cost" || containsSub problem_lower "save" then
      ["Cost reduction"] else [])
    ++ (if containsSub problem_lower "growth" || containsSub problem_lower "scale" then
      ["Business growth"] else [])
  if drivers.isEmpty then ["Digital transformation"] else drivers

/-- `_suggest_success_metrics(problem_statement)`. -/
def suggest_success_metrics (problem_statement : String) : List String :=
  let problem_lower := (pyLower problem_statement)
  if containsSub problem_lower "lead" then
    ["Lead conversion rate", "Sales cycle time", "Lead quality score"]
  else if containsSub problem_lower "checkout" then
    ["Conversion rate", "Cart abandonment rate", "Average order value"]
  else if containsSub problem_lower "patient" then
    ["Data accuracy", "Compliance score", "User adoption rate"]
  else ["User adoption rate", "System performance", "ROI"]

/-- `_identify_risk_factors(industry, problem_statement)`. -/
def identify_risk_factors (industry problem_statement : String) : List String :=
  let risks :=
    (if (pyLower industry) == "healthcare" then ["Regulatory compliance", "Data security"] else [])
    ++ (if containsSub (pyLower problem_statement) "integration" then
      ["System compatibility"] else [])
    ++ (if containsSub (pyLower problem_statement) "new"
        || containsSub (pyLower problem_statement) "implement" then
      ["User adoption"] else [])
  if risks.isEmpty then ["Technical complexity", "Timeline constraints"] else risks

/-- `_generate_business_context(industry, problem_statement)`. -/
def generate_business_context (industry problem_statement : String) : BusinessContext :=
  { industry_trends := get_industry_trends industry
    business_drivers := extract_business_drivers problem_statement
    success_metrics := suggest_success_metrics problem_statement
    risk_factors := identify_risk_factors industry problem_statement }

/-- `_create_new_profile(client_name, industry, problem_statement, tech_stack)`. -/
def create_new_profile (current_year : Int)
    (client_name industry problem_statement tech_stack : String) : ProfileData :=
  { name := client_name
    industry := industry
    founded := estimate_founding_year current_year industry tech_stack
    company_size := estimate_company_size problem_statement tech_stack
    region := determine_regions industry
    stakeholders := generate_stakeholders problem_statement industry
    tech_stack := (pySplitComma tech_stack).map pyStrip
    primary_challenge := extract_primary_challenge problem_statement
    current_project := none
    business_context := none }

/-- `_enhance_profile(profile_data, industry, problem_statement, tech_stack)`.
The tech-stack merge is `list(set(current + new))` in the source, whose
element order is unspecified in Python; it is modelled as a first-occurrence
deduplication, and no claim depends on the order. -/
def enhance_profile (profile_data : ProfileData)
    (industry problem_statement tech_stack : String) : ProfileData :=
  let new_tech := (pySplitComma tech_stack).map pyStrip
  { profile_data with
    tech_stack := (profile_data.tech_stack ++ new_tech).eraseDups
    current_project := some
      { problem_statement := problem_statement
        technologies := new_tech
        project_type := classify_project_type problem_statement
        complexity_level := assess_complexity problem_statement tech_stack }
    business_context := some (generate_business_context industry problem_statement) }

/-- Python truthiness count over the 7 required fields of
`_calculate_profile_completeness`: a string is truthy when non-empty, an
integer when nonzero, a list when non-empty. -/
def field_truthy_count (profile : ProfileData) : Nat :=
  (if profile.name ≠ "" then 1 else 0)
  + (if profile.industry ≠ "" then 1 else 0)
  + (if profile.founded ≠ 0 then 1 else 0)
  + (if profile.region ≠ "" then 1 else 0)
  + (if profile.stakeholders ≠ [] then 1 else 0)
  + (if profile.tech_stack ≠ [] then 1 else 0)
  + (if profile.primary_challenge ≠ "" then 1 else 0)

/-- `_calculate_profile_completeness(profile)`. -/
def calculate_profile_completeness (profile : ProfileData) : ℚ :=
  let base_score := (field_truthy_count profile : ℚ) / 7
  let bonus : ℚ :=
    (if profile.current_project.isSome then 0.1 else 0)
    + (if profile.business_context.isSome then 0.1 else 0)
    + (if profile.stakeholders.length ≥ 2 then 0.05 else 0)
  min (base_score + bonus) 1

/-- `_generate_profile_insights(profile, industry, problem_statement)`; the
problem-statement argument is unused by the Python body. -/
def generate_profile_insights (current_year : Int) (profile : ProfileData)
    (industry _problem_statement : String) : List String :=
  let age := current_year - profile.founded
  (if age < 5 then ["Young company likely focused on rapid growth and scalability"]
   else if age > 20 then ["Established company with potential legacy system challenges"]
   else [])
  ++ (if profile.tech_stack.length > 3 then
    ["Diverse technology stack suggests complex technical requirements"] else [])
  ++ (if profile.stakeholders.length ≥ 3 then
    ["Multiple stakeholders indicate need for comprehensive change management"] else [])
  ++ (if (pyLower industry) == "healthcare" then
    ["Healthcare industry requires strict compliance and security measures"]
  else if (pyLower industry) == "retail" then
    ["Retail focus suggests emphasis on customer experience and conversion"]
  else [])

/-- One row of the `profiles` table as read back by `get_client_profiles()`. -/
structure StoredProfile where
  client_name : String
  profile_data : ProfileData
deriving DecidableEq, Repr

/-- The stage result of `build_client_profile`. -/
structure ProfileResult where
  status : String
  client_profile : ProfileData
  completeness_score : ℚ
  insights : List String
  profile_exists : Bool
deriving DecidableEq, Repr

/-- `build_client_profile(client_name, industry, problem_statement,
tech_stack)` with the profile store passed and returned explicitly. The only
database interaction in the Python body is the read `get_client_profiles()`
followed by a case-insensitive scan for the client name; the body contains no
write, so the store comes back unchanged. -/
def build_client_profile (store : List StoredProfile) (current_year : Int)
    (client_name industry problem_statement tech_stack : String) :
    ProfileResult × List StoredProfile :=
  let existing_profile := store.find? (fun p => (pyLower p.client_name) == (pyLower client_name))
  let profile_data :=
    match existing_profile with
    | some p => p.profile_data
    | none => create_new_profile current_year client_name industry problem_statement tech_stack
  let enhanced_profile := enhance_profile profile_data industry problem_statement tech_stack
  ({ status := "success"
     client_profile := enhanced_profile
     completeness_score := calculate_profile_completeness enhanced_profile
     insights := generate_profile_insights current_year enhanced_profile industry problem_statement
     profile_exists := existing_profile.isSome }, store)

/-! ## Workflow Orchestrator (src/backend/workflow_orchestrator.py)

`execute_full_workflow` initialises a per-run state
(status "running", `current_step` "programme_setup", empty `agent_results`,
the intake dictionary) and then performs five stage calls in a fixed order.
After each call it stores the returned dictionary under the stage name in
`agent_results` and advances `current_step` to the NEXT stage name, and only
then inspects the status tag of the stored result; a non-success tag raises,
landing in the except-branch that marks the state failed and returns an error
dictionary carrying the partial `agent_results`. The meetings stage (stage 4)
has no tag check at all. The sequencing logic reads nothing of a stage result
except its status tag, so results are modelled by that tag. -/

/-- A Python exception escaping a stage call before any result is returned. -/
inductive PyErr where
  | typeError (msg : String)
  | attributeError (msg : String)
deriving DecidableEq, Repr

/-- A stage-result dictionary as seen by the sequencing logic: its status
tag. -/
structure AgentResult where
  status : String
deriving DecidableEq, Repr

/-- The outcomes of the five stage calls for one run: each call either
returns a result dictionary or raises. The insights call receives the domain,
profile and meeting results, mirroring the dataflow of the source; the other
calls depend only on the per-run intake, fixed for the run. -/
structure StageCalls where
  setup : Except PyErr AgentResult
  domain : Except PyErr AgentResult
  profile : Except PyErr AgentResult
  meetings : Except PyErr AgentResult
  insights : AgentResult → AgentResult → AgentResult → Except PyErr AgentResult

/-- The caller-visible return value: on failure the error dictionary whose
key named by the source is spelled p-a-r-t-i-a-l underscore results, holding
the `agent_results` captured so far; on success the summary of
`_generate_workflow_summary`, modelled by its `full_results` key (its other
keys are display formatting over the same data). -/
inductive WorkflowReturn where
  | errorReturn (results_so_far : List (String × AgentResult))
  | summary (full_results : List (String × AgentResult))
deriving DecidableEq, Repr

/-- The terminal workflow state of one run together with the value returned
to the caller. -/
structure WorkflowOutcome where
  status : String
  current_step : String
  agent_results : List (String × AgentResult)
  returned : WorkflowReturn
deriving DecidableEq, Repr

/-- The body of `execute_full_workflow` over the outcomes of its five stage
calls, statement by statement. Each stored result advances `current_step` to
the next stage name before its own tag is checked; the meetings result is
stored with no check; the final tag check happens after `current_step` is
already "completed". -/
def run_full_workflow (st : StageCalls) : WorkflowOutcome :=
  match st.setup with
  | Except.error _ =>
    { status := "failed", current_step := "programme_setup", agent_results := [],
      returned := WorkflowReturn.errorReturn [] }
  | Except.ok setup_result =>
    let r1 := [("programme_setup", setup_result)]
    if setup_result.status ≠ "success" then
      { status := "failed", current_step := "domain_knowledge", agent_results := r1,
        returned := WorkflowReturn.errorReturn r1 }
    else
      match st.domain with
      | Except.error _ =>
        { status := "failed", current_step := "domain_knowledge", agent_results := r1,
          returned := WorkflowReturn.errorReturn r1 }
      | Except.ok domain_result =>
        let r2 := r1 ++ [("domain_knowledge", domain_result)]
        if domain_result.status ≠ "success" then
          { status := "failed", current_step := "client_profile", agent_results := r2,
            returned := WorkflowReturn.errorReturn r2 }
        else
          match st.profile with
          | Except.error _ =>
            { status := "failed", current_step := "client_profile", agent_results := r2,
              returned := WorkflowReturn.errorReturn r2 }
          | Except.ok profile_result =>
            let r3 := r2 ++ [("client_profile", profile_result)]
            if profile_result.status ≠ "success" then
              { status := "failed", current_step := "meetings_analysis", agent_results := r3,
                returned := WorkflowReturn.errorReturn r3 }
            else
              match st.meetings with
              | Except.error _ =>
                { status := "failed", current_step := "meetings_analysis", agent_results := r3,
                  returned := WorkflowReturn.errorReturn r3 }
              | Except.ok meeting_result =>
                let r4 := r3 ++ [("meetings", meeting_result)]
                match st.insights domain_result profile_result meeting_result with
                | Except.error _ =>
                  { status := "failed", current_step := "actionable_insights",
                    agent_results := r4, returned := WorkflowReturn.errorReturn r4 }
                | Except.ok insights_result =>
                  let r5 := r4 ++ [("actionable_insights", insights_result)]
                  if insights_result.status ≠ "success" then
                    { status := "failed", current_step := "completed", agent_results := r5,
                      returned := WorkflowReturn.errorReturn r5 }
                  else
                    { status := "completed", current_step := "completed", agent_results := r5,
                      returned := WorkflowReturn.summary r5 }

/-- A client intake record as the API layer sends it into
`execute_full_workflow` (the tech stack arrives as a JSON list). -/
structure ClientData where
  client_name : String
  industry : String
  problem_statement : String
  tech_stack : List String
deriving DecidableEq, Repr

/-- The stage-call outcomes `execute_full_workflow` actually obtains from the
agents in this source tree. Stage 1 evaluates
`self.programme_setup_agent.process_setup(client_data)`, but the method is
declared `process_setup(self, client_name, industry, problem_statement,
tech_stack)`: binding a single positional dictionary argument raises
TypeError at the call, before the method body (and its internal try/except)
is entered. Stage 2 reads the attribute `analyze_domain` and stage 3 the
attribute `build_profile`; neither exists on the agent classes, whose methods
are named `process_domain_knowledge` and `build_client_profile`, so both
reads raise AttributeError. Stages 4 and 5 call methods that do exist
(`_analyze_meetings_for_client` and `generate_insights`, both of which catch
internally and always return a tagged dictionary); they are unreachable
behind the stage-1 raise and are modelled by tagged returns. -/
def actual_stage_calls (_client_data : ClientData) : StageCalls :=
  { setup := Except.error (PyErr.typeError
      "process_setup() missing 3 required positional arguments")
    domain := Except.error (PyErr.attributeError
      "DomainKnowledgeAgent object has no attribute analyze_domain")
    profile := Except.error (PyErr.attributeError
      "ClientProfileAgent object has no attribute build_profile")
    meetings := Except.ok { status := "success" }
    insights := fun _ _ _ => Except.ok { status := "success" } }

/-- `execute_full_workflow(client_data)` as it runs against the agents of
this source tree. -/
def execute_full_workflow (client_data : ClientData) : WorkflowOutcome :=
  run_full_workflow (actual_stage_calls client_data)

/-- The intake of end-to-end scenario A. -/
def gt_automotive_intake : ClientData :=
  { client_name := "GT Automotive"
    industry := "Automotive"
    problem_statement := "Implement a lead management process using Salesforce"
    tech_stack := ["Salesforce", "Java"] }

/-- Helper: the confidence score computed on the success path is 0.9 on
knowledge-base industries and 0.6 on all others. -/
theorem process_confidence_eq (industry problem_statement tech_stack : String) :
    (process_domain_knowledge industry problem_statement tech_stack).confidence_score =
      if (knowledge_base.map Prod.fst).contains (pyLower industry) then 0.9 else 0.6 := by
  simp only [process_domain_knowledge, calculate_confidence_score]

/-- C6: for every industry whose lower-cased name is a key of the static
knowledge base the domain stage reports confidence exactly 0.9, and for every
other industry exactly 0.6, whatever the problem statement and tech stack. -/
theorem confidence_nine_tenths_on_kb_else_six_tenths
    (industry problem_statement tech_stack : String) :
    (process_domain_knowledge industry problem_statement tech_stack).confidence_score =
      if (knowledge_base.map Prod.fst).contains (pyLower industry) then 0.9 else 0.6 :=
  process_confidence_eq industry problem_statement tech_stack

/-- C10: on the success path the domain confidence is exactly 0.9 or exactly
0.6; the 0.3 branch of `_calculate_confidence_score` is unreachable, because
an industry absent from the knowledge base always receives the fixed
non-empty generic knowledge before the confidence is computed. -/
theorem confidence_three_tenths_branch_unreachable
    (industry problem_statement tech_stack : String) :
    (process_domain_knowledge industry problem_statement tech_stack).confidence_score = 0.9 ∨
    (process_domain_knowledge industry problem_statement tech_stack).confidence_score = 0.6 := by
  rw [process_confidence_eq]
  by_cases h : (knowledge_base.map Prod.fst).contains (pyLower industry)
  · exact Or.inl (if_pos h)
  · exact Or.inr (if_neg h)

/-- C7: the risk score of the empty risk list is exactly 0.2 and its risk
level is "low"; for every non-empty risk list whose probabilities are the
three standard labels, the score equals the arithmetic mean of the weights
low 0.3, medium 0.6, high 0.9, and that mean never exceeds 1 (the cap at 1.0
is inert). -/
theorem risk_score_empty_baseline_and_nonempty_mean :
    calculate_risk_score [] = 0.2 ∧
    categorize_risk_level (calculate_risk_score []) = "low" ∧
    ∀ risks : List Risk, risks ≠ [] →
      (∀ r ∈ risks, r.probability = "low" ∨ r.probability = "medium" ∨ r.probability = "high") →
      calculate_risk_score risks =
          (risks.map (fun r => risk_values r.probability)).sum / (risks.length : ℚ) ∧
        (risks.map (fun r => risk_values r.probability)).sum / (risks.length : ℚ) ≤ 1 := by
  refine ⟨by norm_num [calculate_risk_score],
    by norm_num [calculate_risk_score, categorize_risk_level], ?_⟩
  intro risks hne _hprobs
  have hlenpos : 0 < (risks.length : ℚ) := by
    exact_mod_cast List.length_pos.mpr hne
  have hbound : ∀ x ∈ risks.map (fun r => risk_values r.probability), x ≤ (0.9 : ℚ) := by
    intro x hx
    obtain ⟨r, _, rfl⟩ := List.mem_map.mp hx
    unfold risk_values
    split_ifs <;> norm_num
  have hsum := List.sum_le_card_nsmul _ _ hbound
  rw [List.length_map, nsmul_eq_mul] at hsum
  have hmean : (risks.map (fun r => risk_values r.probability)).sum / (risks.length : ℚ) ≤ 0.9 := by
    rw [div_le_iff₀ hlenpos]
    calc (risks.map (fun r => risk_values r.probability)).sum
        ≤ (risks.length : ℚ) * 0.9 := hsum
      _ = 0.9 * (risks.length : ℚ) := mul_comm _ _
  have hone : (risks.map (fun r => risk_values r.probability)).sum / (risks.length : ℚ) ≤ 1 :=
    le_trans hmean (by norm_num)
  refine ⟨?_, hone⟩
  unfold calculate_risk_score
  rw [if_neg (by simp [hne]), min_eq_left hone]

/-- A concrete pair of risks as `_assess_risks` builds them (the healthcare
compliance risk and the low-compatibility technical risk). -/
def demo_risks : List Risk :=
  [ { category := "compliance", risk := "HIPAA compliance requirements may extend timeline",
      probability := "high", impact := "medium" }
  , { category := "technical", risk := "Low technology stack compatibility",
      probability := "medium", impact := "high" } ]

/-- Witness for C7 at a concrete non-empty risk list. -/
theorem risk_score_mean_witness :
    calculate_risk_score demo_risks =
      (demo_risks.map (fun r => risk_values r.probability)).sum / (demo_risks.length : ℚ) :=
  (risk_score_empty_baseline_and_nonempty_mean.2.2 demo_risks (by decide) (by decide)).1

/-- The automotive knowledge-base entry. -/
def automotive_info : DomainInfo :=
  (kb_lookup "automotive").getD
    { best_practices := [], common_challenges := [], recommended_tools := [] }

/-- Helper: the compatibility score of `_analyze_tech_stack` written over the
compatible-tools list of its own result. -/
theorem analyze_tech_stack_score_def (tech_stack : String) (d : DomainInfo) :
    (analyze_tech_stack tech_stack d).compatibility_score =
      ((analyze_tech_stack tech_stack d).compatible_tools.length : ℚ) /
        ((max d.recommended_tools.length 1 : ℕ) : ℚ) := by
  simp only [analyze_tech_stack, List.length_map, Nat.cast_max, Nat.cast_one]

/-- C5 (amended): when the trimmed case-folded tech items are pairwise
distinct the compatibility score lies in [0, 1]; when moreover the
recommended list is non-empty, its case-folded entries are pairwise distinct
and every one of them occurs among the tech items, the score is exactly 1. -/
theorem tech_compatibility_score_unit_interval_and_superset
    (tech_stack : String) (d : DomainInfo)
    (hnd : (tech_items tech_stack).Nodup) :
    (0 ≤ (analyze_tech_stack tech_stack d).compatibility_score ∧
      (analyze_tech_stack tech_stack d).compatibility_score ≤ 1) ∧
    (d.recommended_tools ≠ [] →
      (d.recommended_tools.map (fun t => pyLower t)).Nodup →
      (∀ t ∈ d.recommended_tools, pyLower t ∈ tech_items tech_stack) →
      (analyze_tech_stack tech_stack d).compatibility_score = 1) := by
  have hcomp : (analyze_tech_stack tech_stack d).compatible_tools =
      (tech_items tech_stack).filter
        (fun tool => (d.recommended_tools.map (fun t => pyLower t)).contains tool) := rfl
  have hmaxpos : (0 : ℚ) < ((max d.recommended_tools.length 1 : ℕ) : ℚ) := by
    exact_mod_cast Nat.lt_of_lt_of_le Nat.zero_lt_one (le_max_right _ 1)
  have hcnodup : ((analyze_tech_stack tech_stack d).compatible_tools).Nodup := by
    rw [hcomp]; exact hnd.filter _
  have hsubset : ∀ x ∈ (analyze_tech_stack tech_stack d).compatible_tools,
      x ∈ d.recommended_tools.map (fun t => pyLower t) := by
    intro x hx
    rw [hcomp] at hx
    have := (List.mem_filter.mp hx).2
    simpa using this
  have hlen_le : (analyze_tech_stack tech_stack d).compatible_tools.length ≤
      (d.recommended_tools.map (fun t => pyLower t)).length := by
    calc (analyze_tech_stack tech_stack d).compatible_tools.length
        = (analyze_tech_stack tech_stack d).compatible_tools.toFinset.card :=
          (List.toFinset_card_of_nodup hcnodup).symm
      _ ≤ (d.recommended_tools.map (fun t => pyLower t)).toFinset.card :=
          Finset.card_le_card (fun x hx =>
            List.mem_toFinset.mpr (hsubset x (List.mem_toFinset.mp hx)))
      _ ≤ (d.recommended_tools.map (fun t => pyLower t)).length :=
          List.toFinset_card_le _
  constructor
  · constructor
    · rw [analyze_tech_stack_score_def]
      positivity
    · rw [analyze_tech_stack_score_def]
      rw [div_le_one hmaxpos]
      have : (analyze_tech_stack tech_stack d).compatible_tools.length ≤
          max d.recommended_tools.length 1 := by
        rw [List.length_map] at hlen_le
        exact le_trans hlen_le (le_max_left _ _)
      exact_mod_cast this
  · intro hne hrnodup hsup
    have hsupset : ∀ x ∈ d.recommended_tools.map (fun t => pyLower t),
        x ∈ (analyze_tech_stack tech_stack d).compatible_tools := by
      intro x hx
      rw [hcomp]
      obtain ⟨t, ht, rfl⟩ := List.mem_map.mp hx
      refine List.mem_filter.mpr ⟨hsup t ht, ?_⟩
      simpa using List.mem_map.mpr ⟨t, ht, rfl⟩
    have hlen_ge : (d.recommended_tools.map (fun t => pyLower t)).length ≤
        (analyze_tech_stack tech_stack d).compatible_tools.length := by
      calc (d.recommended_tools.map (fun t => pyLower t)).length
          = (d.recommended_tools.map (fun t => pyLower t)).toFinset.card :=
            (List.toFinset_card_of_nodup hrnodup).symm
        _ ≤ (analyze_tech_stack tech_stack d).compatible_tools.toFinset.card :=
            Finset.card_le_card (fun x hx =>
              List.mem_toFinset.mpr (hsupset x (List.mem_toFinset.mp hx)))
        _ ≤ (analyze_tech_stack tech_stack d).compatible_tools.length :=
            List.toFinset_card_le _
    have hlen_eq : (analyze_tech_stack tech_stack d).compatible_tools.length =
        d.recommended_tools.length := by
      rw [List.length_map] at hlen_le hlen_ge
      exact le_antisymm hlen_le hlen_ge
    have hrpos : 1 ≤ d.recommended_tools.length :=
      List.length_pos.mpr hne
    rw [analyze_tech_stack_score_def, hlen_eq, max_eq_left hrpos]
    exact div_self (ne_of_gt (by
      exact_mod_cast lt_of_lt_of_le Nat.zero_lt_one hrpos))

/-- C5 counterexample: against the automotive recommended tools, a tech stack
that lists java six times yields compatibility score 6/5, strictly above 1. -/
theorem tech_compatibility_score_exceeds_one_on_duplicates :
    1 < (analyze_tech_stack "java,java,java,java,java,java"
      automotive_info).compatibility_score := by
  rw [analyze_tech_stack_score_def]
  rw [show (analyze_tech_stack "java,java,java,java,java,java"
    automotive_info).compatible_tools.length = 6 from by decide]
  rw [show automotive_info.recommended_tools.length = 5 from by decide]
  norm_num

/-- Witness for C5 at a concrete duplicate-free superset tech stack. -/
theorem tech_compatibility_score_witness :
    (0 ≤ (analyze_tech_stack "Salesforce, HubSpot, Pipedrive, Java, Python, Git"
        automotive_info).compatibility_score ∧
      (analyze_tech_stack "Salesforce, HubSpot, Pipedrive, Java, Python, Git"
        automotive_info).compatibility_score ≤ 1) ∧
    (analyze_tech_stack "Salesforce, HubSpot, Pipedrive, Java, Python, Git"
      automotive_info).compatibility_score = 1 :=
  ⟨(tech_compatibility_score_unit_interval_and_superset _ automotive_info (by decide)).1,
    (tech_compatibility_score_unit_interval_and_superset _ automotive_info (by decide)).2
      (by decide) (by decide) (by decide)⟩

/-- Helper: Python capitalize preserves length. -/
theorem pyCapitalize_length (s : String) : (pyCapitalize s).length = s.length := by
  cases s with
  | mk data =>
    cases data with
    | nil => rfl
    | cons c rest =>
      simp [pyCapitalize, String.length, String.toList, String.mk]

/-- Helper: everything produced by the deduplication loop comes from its
input list. -/
theorem dedupActionItems_subset (l : List ActionItem) :
    ∀ seen : List String, ∀ x ∈ dedupActionItems l seen, x ∈ l := by
  induction l with
  | nil => intro seen x hx; simp [dedupActionItems] at hx
  | cons it rest ih =>
    intro seen x hx
    unfold dedupActionItems at hx
    by_cases h : seen.contains (pyLower it.item) = true
    · rw [if_pos h] at hx
      exact List.mem_cons_of_mem _ (ih _ x hx)
    · rw [if_neg h] at hx
      rcases List.mem_cons.mp hx with rfl | hx'
      · exact List.mem_cons_self _ _
      · exact List.mem_cons_of_mem _ (ih _ x hx')

/-- Helper: no item kept by the deduplication loop has its lower-cased text
in the seen set. -/
theorem dedupActionItems_not_seen (l : List ActionItem) :
    ∀ seen : List String, ∀ x ∈ dedupActionItems l seen, pyLower x.item ∉ seen := by
  induction l with
  | nil => intro seen x hx; simp [dedupActionItems] at hx
  | cons it rest ih =>
    intro seen x hx
    unfold dedupActionItems at hx
    by_cases h : seen.contains (pyLower it.item) = true
    · rw [if_pos h] at hx
      exact ih _ x hx
    · rw [if_neg h] at hx
      rcases List.mem_cons.mp hx with rfl | hx'
      · intro hmem
        exact h (by simpa using hmem)
      · intro hmem
        exact ih _ x hx' (List.mem_cons_of_mem _ hmem)

/-- Helper: the deduplication loop produces pairwise distinct lower-cased
texts. -/
theorem dedupActionItems_pairwise (l : List ActionItem) :
    ∀ seen : List String,
      (dedupActionItems l seen).Pairwise (fun a b => pyLower a.item ≠ pyLower b.item) := by
  induction l with
  | nil => intro seen; simp [dedupActionItems]
  | cons it rest ih =>
    intro seen
    unfold dedupActionItems
    by_cases h : seen.contains (pyLower it.item) = true
    · rw [if_pos h]; exact ih _
    · rw [if_neg h]
      refine List.Pairwise.cons ?_ (ih _)
      intro b hb
      have hnot := dedupActionItems_not_seen rest (pyLower it.item :: seen) b hb
      intro heq
      exact hnot (heq ▸ List.mem_cons_self _ _)

/-- C8: for every transcript the extracted action-item list has at most 5
entries, no two of its texts are equal case-insensitively, and every stored
text (the trimmed match, capitalized) is longer than 10 characters. -/
theorem action_items_capped_dedup_and_min_length (transcript : String) :
    (extract_action_items transcript).length ≤ 5 ∧
    (extract_action_items transcript).Pairwise
      (fun a b => pyLower a.item ≠ pyLower b.item) ∧
    ∀ it ∈ extract_action_items transcript, 10 < it.item.length := by
  refine ⟨List.length_take_le _ _, ?_, ?_⟩
  · exact List.Pairwise.sublist (List.take_sublist _ _) (dedupActionItems_pairwise _ _)
  · intro it hit
    have h1 : it ∈ dedupActionItems (tagged_action_items transcript) [] :=
      List.mem_of_mem_take hit
    have h2 : it ∈ tagged_action_items transcript :=
      dedupActionItems_subset _ _ it h1
    unfold tagged_action_items at h2
    obtain ⟨m, hm, rfl⟩ := List.mem_map.mp h2
    have hlen : 10 < (pyStrip m).length := by
      have := List.of_mem_filter hm
      simpa using this
    simpa [pyCapitalize_length] using hlen

/-- The transcript of end-to-end scenario C. -/
def engagement_scenario_transcript : String :=
  "We need to finalize the encryption plan. Engagement: 80%."

/-- C9: when an explicit engagement percentage is parsed from the transcript
the engagement score is that percentage over 100, otherwise it is the bounded
word/question/exclamation formula capped at 1; on the scenario-C transcript
the parsed percentage is 80 and the score 0.8. -/
theorem engagement_score_explicit_pct_wins :
    (∀ transcript : String, ∀ pct : Nat,
      (calculate_engagement_metrics transcript).engagement_percentage = some pct →
      (calculate_engagement_metrics transcript).engagement_score = (pct : ℚ) / 100) ∧
    (∀ transcript : String,
      (calculate_engagement_metrics transcript).engagement_percentage = none →
      (calculate_engagement_metrics transcript).engagement_score =
        min (min (((calculate_engagement_metrics transcript).word_count : ℚ) / 200) 1
          + min (((calculate_engagement_metrics transcript).question_count : ℚ) * 0.1) 0.3
          + min (((calculate_engagement_metrics transcript).exclamation_count : ℚ) * 0.05) 0.2)
          1) ∧
    (calculate_engagement_metrics engagement_scenario_transcript).engagement_percentage =
      some 80 ∧
    (calculate_engagement_metrics engagement_scenario_transcript).engagement_score = 0.8 := by
  refine ⟨?_, ?_, by decide, ?_⟩
  · intro transcript pct h
    simp only [calculate_engagement_metrics] at h ⊢
    rw [h]
    simp [calculate_engagement_score]
  · intro transcript h
    simp only [calculate_engagement_metrics] at h ⊢
    rw [h]
    simp [calculate_engagement_score]
  · simp only [calculate_engagement_metrics]
    rw [show search_engagement_percentage (pyLower engagement_scenario_transcript) =
      some 80 from by decide]
    simp only [calculate_engagement_score]
    norm_num

/-- Witness for C9: the explicit-percentage branch applied to the scenario-C
transcript. -/
theorem engagement_score_witness :
    (calculate_engagement_metrics engagement_scenario_transcript).engagement_score =
      ((80 : Nat) : ℚ) / 100 :=
  engagement_score_explicit_pct_wins.1 engagement_scenario_transcript 80 (by decide)

/-- A stage result with the success tag. -/
def success_result : AgentResult := { status := "success" }

/-- A stage result with the error tag (as the agents return on failure). -/
def error_result : AgentResult := { status := "error" }

/-- A run in which every stage call returns a success-tagged result. -/
def all_success_calls : StageCalls :=
  { setup := Except.ok success_result
    domain := Except.ok success_result
    profile := Except.ok success_result
    meetings := Except.ok success_result
    insights := fun _ _ _ => Except.ok success_result }

/-- A run whose first stage returns an error-tagged result. -/
def stage1_failure_calls : StageCalls :=
  { all_success_calls with setup := Except.ok error_result }

/-- A run whose second stage returns an error-tagged result. -/
def stage2_failure_calls : StageCalls :=
  { all_success_calls with domain := Except.ok error_result }

/-- A run whose meetings stage returns an error-tagged result while every
other stage succeeds. -/
def stage4_error_calls : StageCalls :=
  { all_success_calls with meetings := Except.ok error_result }

/-- Helper: the terminal state of `run_full_workflow` in each of the seven
control-flow cases, as full outcome equalities: a raise at the first call;
an error tag at stage 1, 2, 3 or 5; and the two completed shapes (the
meetings tag is never hypothesised, because the source never checks it). -/
theorem run_full_workflow_cases (st : StageCalls) :
    (∀ e, st.setup = Except.error e →
      run_full_workflow st =
        { status := "failed", current_step := "programme_setup", agent_results := [],
          returned := WorkflowReturn.errorReturn [] }) ∧
    (∀ s, st.setup = Except.ok s → s.status ≠ "success" →
      run_full_workflow st =
        { status := "failed", current_step := "domain_knowledge",
          agent_results := [("programme_setup", s)],
          returned := WorkflowReturn.errorReturn [("programme_setup", s)] }) ∧
    (∀ s d, st.setup = Except.ok s → s.status = "success" →
      st.domain = Except.ok d → d.status ≠ "success" →
      run_full_workflow st =
        { status := "failed", current_step := "client_profile",
          agent_results := [("programme_setup", s), ("domain_knowledge", d)],
          returned := WorkflowReturn.errorReturn
            [("programme_setup", s), ("domain_knowledge", d)] }) ∧
    (∀ s d p, st.setup = Except.ok s → s.status = "success" →
      st.domain = Except.ok d → d.status = "success" →
      st.profile = Except.ok p → p.status ≠ "success" →
      run_full_workflow st =
        { status := "failed", current_step := "meetings_analysis",
          agent_results :=
            [("programme_setup", s), ("domain_knowledge", d), ("client_profile", p)],
          returned := WorkflowReturn.errorReturn
            [("programme_setup", s), ("domain_knowledge", d), ("client_profile", p)] }) ∧
    (∀ s d p m i, st.setup = Except.ok s → s.status = "success" →
      st.domain = Except.ok d → d.status = "success" →
      st.profile = Except.ok p → p.status = "success" →
      st.meetings = Except.ok m → st.insights d p m = Except.ok i →
      i.status ≠ "success" →
      run_full_workflow st =
        { status := "failed", current_step := "completed",
          agent_results :=
            [("programme_setup", s), ("domain_knowledge", d), ("client_profile", p),
             ("meetings", m), ("actionable_insights", i)],
          returned := WorkflowReturn.errorReturn
            [("programme_setup", s), ("domain_knowledge", d), ("client_profile", p),
             ("meetings", m), ("actionable_insights", i)] }) ∧
    (∀ s d p m i, st.setup = Except.ok s → s.status = "success" →
      st.domain = Except.ok d → d.status = "success" →
      st.profile = Except.ok p → p.status = "success" →
      st.meetings = Except.ok m → st.insights d p m = Except.ok i →
      i.status = "success" →
      run_full_workflow st =
        { status := "completed", current_step := "completed",
          agent_results :=
            [("programme_setup", s), ("domain_knowledge", d), ("client_profile", p),
             ("meetings", m), ("actionable_insights", i)],
          returned := WorkflowReturn.summary
            [("programme_setup", s), ("domain_knowledge", d), ("client_profile", p),
             ("meetings", m), ("actionable_insights", i)] }) := by
  refine ⟨?_, ?_, ?_, ?_, ?_, ?_⟩
  · intro e h
    simp [run_full_workflow, h]
  · intro s h1 h2
    simp [run_full_workflow, h1, h2]
  · intro s d h1 h2 h3 h4
    simp [run_full_workflow, h1, h2, h3, h4]
  · intro s d p h1 h2 h3 h4 h5 h6
    simp [run_full_workflow, h1, h2, h3, h4, h5, h6]
  · intro s d p m i h1 h2 h3 h4 h5 h6 h7 h8 h9
    simp [run_full_workflow, h1, h2, h3, h4, h5, h6, h7, h8, h9]
  · intro s d p m i h1 h2 h3 h4 h5 h6 h7 h8 h9
    simp [run_full_workflow, h1, h2, h3, h4, h5, h6, h7, h8, h9]

/-- C1 (amended): an error-tagged result aborts the run at stages 1, 2, 3
and 5, leaving `agent_results` with exactly the success results of the
earlier stages plus the error-tagged result of the failing stage, later
stages absent, and those partial results are returned to the caller; but an
error-tagged meetings result (stage 4) is recorded without aborting: stage 5
still executes and the run can even complete. -/
theorem tag_failure_aborts_at_all_stages_except_meetings (st : StageCalls) :
    (∀ s, st.setup = Except.ok s → s.status ≠ "success" →
      (run_full_workflow st).status = "failed" ∧
      (run_full_workflow st).agent_results = [("programme_setup", s)] ∧
      (run_full_workflow st).returned =
        WorkflowReturn.errorReturn [("programme_setup", s)]) ∧
    (∀ s d, st.setup = Except.ok s → s.status = "success" →
      st.domain = Except.ok d → d.status ≠ "success" →
      (run_full_workflow st).status = "failed" ∧
      (run_full_workflow st).agent_results =
        [("programme_setup", s), ("domain_knowledge", d)] ∧
      (run_full_workflow st).returned = WorkflowReturn.errorReturn
        [("programme_setup", s), ("domain_knowledge", d)]) ∧
    (∀ s d p, st.setup = Except.ok s → s.status = "success" →
      st.domain = Except.ok d → d.status = "success" →
      st.profile = Except.ok p → p.status ≠ "success" →
      (run_full_workflow st).status = "failed" ∧
      (run_full_workflow st).agent_results =
        [("programme_setup", s), ("domain_knowledge", d), ("client_profile", p)] ∧
      (run_full_workflow st).returned = WorkflowReturn.errorReturn
        [("programme_setup", s), ("domain_knowledge", d), ("client_profile", p)]) ∧
    (∀ s d p m i, st.setup = Except.ok s → s.status = "success" →
      st.domain = Except.ok d → d.status = "success" →
      st.profile = Except.ok p → p.status = "success" →
      st.meetings = Except.ok m → st.insights d p m = Except.ok i →
      i.status ≠ "success" →
      (run_full_workflow st).status = "failed" ∧
      (run_full_workflow st).agent_results =
        [("programme_setup", s), ("domain_knowledge", d), ("client_profile", p),
         ("meetings", m), ("actionable_insights", i)]) ∧
    (∀ s d p m i, st.setup = Except.ok s → s.status = "success" →
      st.domain = Except.ok d → d.status = "success" →
      st.profile = Except.ok p → p.status = "success" →
      st.meetings = Except.ok m → m.status ≠ "success" →
      st.insights d p m = Except.ok i → i.status = "success" →
      (run_full_workflow st).status = "completed" ∧
      (run_full_workflow st).agent_results =
        [("programme_setup", s), ("domain_knowledge", d), ("client_profile", p),
         ("meetings", m), ("actionable_insights", i)]) := by
  obtain ⟨_, c2, c3, c4, c5, c6⟩ := run_full_workflow_cases st
  refine ⟨?_, ?_, ?_, ?_, ?_⟩
  · intro s h1 h2
    rw [c2 s h1 h2]
    exact ⟨rfl, rfl, rfl⟩
  · intro s d h1 h2 h3 h4
    rw [c3 s d h1 h2 h3 h4]
    exact ⟨rfl, rfl, rfl⟩
  · intro s d p h1 h2 h3 h4 h5 h6
    rw [c4 s d p h1 h2 h3 h4 h5 h6]
    exact ⟨rfl, rfl, rfl⟩
  · intro s d p m i h1 h2 h3 h4 h5 h6 h7 h8 h9
    rw [c5 s d p m i h1 h2 h3 h4 h5 h6 h7 h8 h9]
    exact ⟨rfl, rfl⟩
  · intro s d p m i h1 h2 h3 h4 h5 h6 h7 _hm h8 h9
    rw [c6 s d p m i h1 h2 h3 h4 h5 h6 h7 h8 h9]
    exact ⟨rfl, rfl⟩

/-- C1 counterexample: with success-tagged stages around it, an error-tagged
meetings result does not abort the workflow: stage 5 still executes, its
result is recorded, and the run terminates with status "completed". -/
theorem meetings_tag_error_does_not_abort :
    stage4_error_calls.meetings = Except.ok error_result ∧
    error_result.status = "error" ∧
    (run_full_workflow stage4_error_calls).status = "completed" ∧
    (run_full_workflow stage4_error_calls).agent_results =
      [("programme_setup", success_result), ("domain_knowledge", success_result),
       ("client_profile", success_result), ("meetings", error_result),
       ("actionable_insights", success_result)] := by
  refine ⟨rfl, rfl, ?_, ?_⟩ <;> decide

/-- Witness for C1: the stage-2 abort case at a concrete run. -/
theorem tag_failure_abort_witness :
    (run_full_workflow stage2_failure_calls).status = "failed" ∧
    (run_full_workflow stage2_failure_calls).agent_results =
      [("programme_setup", success_result), ("domain_knowledge", error_result)] ∧
    (run_full_workflow stage2_failure_calls).returned = WorkflowReturn.errorReturn
      [("programme_setup", success_result), ("domain_knowledge", error_result)] :=
  (tag_failure_aborts_at_all_stages_except_meetings stage2_failure_calls).2.1
    success_result error_result rfl rfl rfl (by decide)

/-- C3 (amended): the orchestrator advances `current_step` to the next stage
name before that stage is attempted, so on a failure signalled by an
error-tagged result the recorded `current_step` is the name of the stage
AFTER the failed one ("completed" when stage 5 fails); it names the failed
stage itself only when the stage call raises instead of returning a tagged
result. -/
theorem current_step_names_next_stage_on_tag_failure (st : StageCalls) :
    (∀ s, st.setup = Except.ok s → s.status ≠ "success" →
      (run_full_workflow st).current_step = "domain_knowledge") ∧
    (∀ s d, st.setup = Except.ok s → s.status = "success" →
      st.domain = Except.ok d → d.status ≠ "success" →
      (run_full_workflow st).current_step = "client_profile") ∧
    (∀ s d p, st.setup = Except.ok s → s.status = "success" →
      st.domain = Except.ok d → d.status = "success" →
      st.profile = Except.ok p → p.status ≠ "success" →
      (run_full_workflow st).current_step = "meetings_analysis") ∧
    (∀ s d p m i, st.setup = Except.ok s → s.status = "success" →
      st.domain = Except.ok d → d.status = "success" →
      st.profile = Except.ok p → p.status = "success" →
      st.meetings = Except.ok m → st.insights d p m = Except.ok i →
      i.status ≠ "success" →
      (run_full_workflow st).current_step = "completed") ∧
    (∀ e, st.setup = Except.error e →
      (run_full_workflow st).current_step = "programme_setup") := by
  obtain ⟨c1, c2, c3, c4, c5, _⟩ := run_full_workflow_cases st
  refine ⟨?_, ?_, ?_, ?_, ?_⟩
  · intro s h1 h2; rw [c2 s h1 h2]
  · intro s d h1 h2 h3 h4; rw [c3 s d h1 h2 h3 h4]
  · intro s d p h1 h2 h3 h4 h5 h6; rw [c4 s d p h1 h2 h3 h4 h5 h6]
  · intro s d p m i h1 h2 h3 h4 h5 h6 h7 h8 h9
    rw [c5 s d p m i h1 h2 h3 h4 h5 h6 h7 h8 h9]
  · intro e h; rw [c1 e h]

/-- C3 counterexample: a run whose first stage returns an error-tagged result
records `current_step` as "domain_knowledge" (the stage that would have run
next), not "programme_setup" (the stage that failed, whose error-tagged
result sits in `agent_results`). -/
theorem current_step_is_next_stage_not_failed_stage :
    (run_full_workflow stage1_failure_calls).status = "failed" ∧
    (run_full_workflow stage1_failure_calls).agent_results =
      [("programme_setup", error_result)] ∧
    (run_full_workflow stage1_failure_calls).current_step = "domain_knowledge" ∧
    (run_full_workflow stage1_failure_calls).current_step ≠ "programme_setup" := by
  refine ⟨?_, ?_, ?_, ?_⟩ <;> decide

/-- Witness for C3: the stage-1 tag-failure case at a concrete run. -/
theorem current_step_next_stage_witness :
    (run_full_workflow stage1_failure_calls).current_step = "domain_knowledge" :=
  (current_step_names_next_stage_on_tag_failure stage1_failure_calls).1
    error_result rfl (by decide)

/-- C2: on the scenario-A intake, `execute_full_workflow` never reaches the
domain stage: its very first stage call raises (the orchestrator passes one
dictionary to a four-parameter method), so the run fails at
"programme_setup" with empty `agent_results` and the caller receives the
error dictionary with no partial results — not a completed workflow with
confidence 0.9. -/
theorem scenario_a_workflow_fails_at_stage_one :
    execute_full_workflow gt_automotive_intake =
      { status := "failed", current_step := "programme_setup", agent_results := [],
        returned := WorkflowReturn.errorReturn [] } := rfl

/-- C4 (amended): stage 3 reads the profile store and returns it unchanged:
no client-profile record is created or updated by `build_client_profile`
(and the domain and insights stages contain no store access at all). -/
theorem build_client_profile_preserves_store (store : List StoredProfile)
    (current_year : Int) (client_name industry problem_statement tech_stack : String) :
    (build_client_profile store current_year client_name industry problem_statement
      tech_stack).2 = store := rfl

/-- C4 counterexample: running stage 3 for GT Automotive against the empty
store succeeds and reports the profile in its result, yet afterwards the
store still holds no record for the client. -/
theorem gt_profile_not_persisted :
    ((build_client_profile [] 2026 "GT Automotive" "Automotive"
      "Implement a lead management process using Salesforce" "Salesforce, Java").1.status
        = "success") ∧
    ((build_client_profile [] 2026 "GT Automotive" "Automotive"
      "Implement a lead management process using Salesforce"
      "Salesforce, Java").1.profile_exists = false) ∧
    ((build_client_profile [] 2026 "GT Automotive" "Automotive"
      "Implement a lead management process using Salesforce" "Salesforce, Java").2 = []) :=
  ⟨by decide, by decide, rfl⟩

end KS
